import Mathlib

/-!
Verification of the procedural media-synthesis pipeline of the
`shorts-generator` repository, shallowly embedded in Lean 4.

Conventions used throughout this development:

* Python floats are modelled by `ℚ`.  Library math routines (`np.sin`,
  `np.cos`, `np.sqrt`, `np.pi`) are opaque to the repository's code, so they
  are passed in as an explicit `MathFns` record of rational functions; every
  property proved here holds for an arbitrary such record.
* Python's `int(x)` truncates toward zero; it is modelled by `pyInt`.
* Python's `%` on integers returns a result with the sign of the divisor;
  for a positive divisor this agrees with Lean's `Int.emod` / `Nat.mod`.
* Fallible Python code (code that can raise) is modelled with
  `Except PyErr`; a bare `try/except` returning a fallback is modelled by
  pattern matching on the `Except` value.
-/

/-- Python `int()` applied to a rational: truncation toward zero. -/
def pyInt (x : ℚ) : ℤ := if 0 ≤ x then ⌊x⌋ else ⌈x⌉

/-- Python `round()` applied to a rational (rounds to the nearest integer;
Python breaks exact ties to even, Mathlib's `round` breaks them upward — the
two agree away from exact half-integer ties, and every input used in this
file is away from a tie). -/
def pyRound (x : ℚ) : ℤ := round x

/-- Embeds `_hsv_to_rgb(h, s, v)` from `src/agents/video_agent.py`
(identical to `hsv_to_rgb` in `src/simple_puppy_test.py`): h is on a 0–360 scale, s and v
on 0–100 scales; returns the case-specific permutation of `(v,p,q,t)` scaled
by 255 and truncated with `int()`. -/
def hsv_to_rgb (h s v : ℚ) : ℤ × ℤ × ℤ :=
  let h1 := h / 360
  let s1 := s / 100
  let v1 := v / 100
  if s1 = 0 then
    (pyInt (v1 * 255), pyInt (v1 * 255), pyInt (v1 * 255))
  else
    let i0 := pyInt (h1 * 6)
    let f := h1 * 6 - i0
    let p := v1 * (1 - s1)
    let q := v1 * (1 - s1 * f)
    let t := v1 * (1 - s1 * (1 - f))
    let i := i0 % 6
    if i = 0 then (pyInt (v1 * 255), pyInt (t * 255), pyInt (p * 255))
    else if i = 1 then (pyInt (q * 255), pyInt (v1 * 255), pyInt (p * 255))
    else if i = 2 then (pyInt (p * 255), pyInt (v1 * 255), pyInt (t * 255))
    else if i = 3 then (pyInt (p * 255), pyInt (q * 255), pyInt (v1 * 255))
    else if i = 4 then (pyInt (t * 255), pyInt (p * 255), pyInt (v1 * 255))
    else (pyInt (v1 * 255), pyInt (p * 255), pyInt (q * 255))

lemma pyInt_of_nonneg {x : ℚ} (hx : 0 ≤ x) : pyInt x = ⌊x⌋ := by
  simp [pyInt, hx]

/-- A channel value `pyInt (x * 255)` lies in `[0, 255]` when `x ∈ [0, 1]`. -/
lemma pyInt_channel_mem {x : ℚ} (h0 : 0 ≤ x) (h1 : x ≤ 1) :
    0 ≤ pyInt (x * 255) ∧ pyInt (x * 255) ≤ 255 := by
  have hx0 : (0 : ℚ) ≤ x * 255 := by positivity
  rw [pyInt_of_nonneg hx0]
  constructor
  · exact Int.floor_nonneg.mpr hx0
  · have : x * 255 ≤ 255 := by nlinarith
    calc (⌊x * 255⌋ : ℤ) ≤ ⌊(255 : ℚ)⌋ := Int.floor_le_floor this
    _ = 255 := by norm_num

/-- C8 counterexample: the conversion performs no clamping of `s`, so the
out-of-range input `(h,s,v) = (0,200,100)` yields channels `-255 ∉ [0,255]`,
refuting the claim that out-of-range inputs are clamped/reduced into valid
range before conversion. -/
theorem c8_counterexample :
    hsv_to_rgb 0 200 100 = (255, -255, -255) := by
  norm_num [hsv_to_rgb, pyInt]
  rw [show ((-255:ℚ)) = ((-255 : ℤ) : ℚ) by norm_num, Int.ceil_intCast]

/-- C8 (amended): `hsv_to_rgb` is a total function (it can never raise), and
hue is effectively reduced modulo the six sectors, but saturation and value
are *not* clamped; every returned channel lies in `[0,255]` whenever
`0 ≤ h`, `s ∈ [0,100]` and `v ∈ [0,100]`. -/
theorem c8_channels_in_range (h s v : ℚ) (hh : 0 ≤ h)
    (hs0 : 0 ≤ s) (hs1 : s ≤ 100) (hv0 : 0 ≤ v) (hv1 : v ≤ 100) :
    0 ≤ (hsv_to_rgb h s v).1 ∧ (hsv_to_rgb h s v).1 ≤ 255 ∧
    0 ≤ (hsv_to_rgb h s v).2.1 ∧ (hsv_to_rgb h s v).2.1 ≤ 255 ∧
    0 ≤ (hsv_to_rgb h s v).2.2 ∧ (hsv_to_rgb h s v).2.2 ≤ 255 := by
  have hsa : (0:ℚ) ≤ s / 100 := by positivity
  have hsb : s / 100 ≤ 1 := by linarith
  have hva : (0:ℚ) ≤ v / 100 := by positivity
  have hvb : v / 100 ≤ 1 := by linarith
  have hhy : (0:ℚ) ≤ h / 360 * 6 := by positivity
  have hfr0 : (0:ℚ) ≤ h / 360 * 6 - (pyInt (h / 360 * 6) : ℚ) := by
    rw [pyInt_of_nonneg hhy]
    have := Int.floor_le (h / 360 * 6)
    linarith
  have hfr1 : h / 360 * 6 - (pyInt (h / 360 * 6) : ℚ) ≤ 1 := by
    rw [pyInt_of_nonneg hhy]
    have := Int.lt_floor_add_one (h / 360 * 6)
    linarith
  have hp0 : (0:ℚ) ≤ v / 100 * (1 - s / 100) := by nlinarith
  have hp1 : v / 100 * (1 - s / 100) ≤ 1 := by nlinarith
  have hq0 : (0:ℚ) ≤
      v / 100 * (1 - s / 100 * (h / 360 * 6 - (pyInt (h / 360 * 6) : ℚ))) := by
    nlinarith
  have hq1 :
      v / 100 * (1 - s / 100 * (h / 360 * 6 - (pyInt (h / 360 * 6) : ℚ))) ≤ 1 := by
    nlinarith
  have ht0 : (0:ℚ) ≤
      v / 100 * (1 - s / 100 * (1 - (h / 360 * 6 - (pyInt (h / 360 * 6) : ℚ)))) := by
    nlinarith
  have ht1 :
      v / 100 * (1 - s / 100 * (1 - (h / 360 * 6 - (pyInt (h / 360 * 6) : ℚ)))) ≤ 1 := by
    nlinarith
  simp only [hsv_to_rgb]
  split_ifs <;>
    refine ⟨?_, ?_, ?_, ?_, ?_, ?_⟩ <;>
      first
        | exact (pyInt_channel_mem hva hvb).1
        | exact (pyInt_channel_mem hva hvb).2
        | exact (pyInt_channel_mem hp0 hp1).1
        | exact (pyInt_channel_mem hp0 hp1).2
        | exact (pyInt_channel_mem hq0 hq1).1
        | exact (pyInt_channel_mem hq0 hq1).2
        | exact (pyInt_channel_mem ht0 ht1).1
        | exact (pyInt_channel_mem ht0 ht1).2

/-- Witness for `c8_channels_in_range` at `(h,s,v) = (30, 80, 90)`. -/
theorem c8_channels_in_range_witness :
    0 ≤ (hsv_to_rgb 30 80 90).1 ∧ (hsv_to_rgb 30 80 90).1 ≤ 255 ∧
    0 ≤ (hsv_to_rgb 30 80 90).2.1 ∧ (hsv_to_rgb 30 80 90).2.1 ≤ 255 ∧
    0 ≤ (hsv_to_rgb 30 80 90).2.2 ∧ (hsv_to_rgb 30 80 90).2.2 ≤ 255 :=
  c8_channels_in_range 30 80 90 (by norm_num) (by norm_num) (by norm_num)
    (by norm_num) (by norm_num)

/-- C3 counterexample: at `v = 1` (with `s = 0`) the code returns channel
`int(2.55) = 2`, while the claim's `round(v/100*255)` is `3`. -/
theorem c3_counterexample :
    hsv_to_rgb 0 0 1 = (2, 2, 2) ∧ pyRound (1 / 100 * 255) = 3 := by
  norm_num [hsv_to_rgb, pyInt, pyRound, round_eq]

/-- C3 (amended): for every hue `h` and every `v ∈ [0,100]`, the conversion
with saturation `0` returns the gray triple whose channels each equal
`⌊v/100*255⌋` (truncation, not rounding). -/
theorem c3_gray_floor (h v : ℚ) (hv0 : 0 ≤ v) (hv1 : v ≤ 100) :
    hsv_to_rgb h 0 v =
      (⌊v / 100 * 255⌋, ⌊v / 100 * 255⌋, ⌊v / 100 * 255⌋) := by
  have hx : (0:ℚ) ≤ v / 100 * 255 := by positivity
  simp only [hsv_to_rgb]
  rw [if_pos (by norm_num), pyInt_of_nonneg hx]

/-- Witness for `c3_gray_floor` at `(h, v) = (7, 1)`. -/
theorem c3_gray_floor_witness : hsv_to_rgb 7 0 1 = (2, 2, 2) := by
  have h := c3_gray_floor 7 1 (by norm_num) (by norm_num)
  rw [h]
  norm_num

/-! ## Chord-tone derivation (`src/agents/audio_agent.py`) -/

/-- The 12-tone chromatic scale list used by `_get_major_third`,
`_get_minor_third` and `_get_perfect_fifth` in `src/agents/audio_agent.py`. -/
def chromaticNotes : List String :=
  ["C", "C#", "D"] ++ ["D#", "E", "F"] ++ ["F#", "G", "G#"] ++
    ["A", "A#", "B"]

/-- Table `self.note_frequencies` from `AudioAgent.__init__` (A4 = 440 Hz). -/
def noteFrequencies : List (String × ℚ) :=
  [("C", 261.63), ("C#", 277.18), ("D", 293.66), ("D#", 311.13),
   ("E", 329.63), ("F", 349.23), ("F#", 369.99), ("G", 392.00),
   ("G#", 415.30), ("A", 440.00), ("A#", 466.16), ("B", 493.88)]

/-- Python `s.endswith(t)`, on the underlying character lists. -/
def pyEndsWith (s t : String) : Bool := t.data.isSuffixOf s.data

/-- Python `s[:-1]` (drop the last character), on the character list. -/
def pyDropLast (s : String) : String := ⟨s.data.dropLast⟩

/-- Embeds `_get_major_third`: the note at `(notes.index(note) + 4) % 12`;
`none` models the `ValueError` that `list.index` raises when the note is
absent. -/
def getMajorThird (note : String) : Option String :=
  if note ∈ chromaticNotes then
    chromaticNotes.get? ((chromaticNotes.indexOf note + 4) % 12)
  else none

/-- Embeds `_get_minor_third`: the note at `(notes.index(note) + 3) % 12`. -/
def getMinorThird (note : String) : Option String :=
  if note ∈ chromaticNotes then
    chromaticNotes.get? ((chromaticNotes.indexOf note + 3) % 12)
  else none

/-- Embeds `_get_perfect_fifth`: the note at `(notes.index(note) + 7) % 12`. -/
def getPerfectFifth (note : String) : Option String :=
  if note ∈ chromaticNotes then
    chromaticNotes.get? ((chromaticNotes.indexOf note + 7) % 12)
  else none

/-- Dictionary lookup `self.note_frequencies.get(n, d)`. -/
def noteFreq (n : String) (d : ℚ) : ℚ := (noteFrequencies.lookup n).getD d

/-- Embeds `_get_chord_notes(chord)`: minor iff the symbol ends with `'m'` (root is
the symbol without the marker), otherwise major; returns the frequencies of
root/third/fifth with the source's dictionary-lookup defaults. -/
def getChordNotes (chord : String) : Option (ℚ × ℚ × ℚ) :=
  if pyEndsWith chord "m" then
    let root := pyDropLast chord
    do
      let third ← getMinorThird root
      let fifth ← getPerfectFifth root
      pure (noteFreq root 440, noteFreq third 554.37, noteFreq fifth 659.25)
  else do
    let third ← getMajorThird chord
    let fifth ← getPerfectFifth chord
    pure (noteFreq chord 440, noteFreq third 554.37, noteFreq fifth 659.25)

/-- C5 (confirmed): for every position `i` in the 12-tone chromatic list, the
major third is the note 4 semitones above mod 12, the minor third 3 above,
the perfect fifth 7 above; concretely `major_third("C")="E"`,
`minor_third("C")="D#"`, `perfect_fifth("C")="G"`, `perfect_fifth("G")="D"`;
and a chord is derived as minor exactly when its symbol carries the `'m'`
marker (`"Am"`, `"F#m"` resolve by the minor third of the stripped root,
plain `"C"` by the major third). -/
theorem c5_chord_tones :
    (∀ i < 12, getMajorThird (chromaticNotes.getD i "") =
      chromaticNotes.get? ((i + 4) % 12))
    ∧ (∀ i < 12, getMinorThird (chromaticNotes.getD i "") =
      chromaticNotes.get? ((i + 3) % 12))
    ∧ (∀ i < 12, getPerfectFifth (chromaticNotes.getD i "") =
      chromaticNotes.get? ((i + 7) % 12))
    ∧ getMajorThird "C" = some "E"
    ∧ getMinorThird "C" = some "D#"
    ∧ getPerfectFifth "C" = some "G"
    ∧ getPerfectFifth "G" = some "D"
    ∧ getChordNotes "Am" = some (440, 261.63, 329.63)
    ∧ getChordNotes "C" = some (261.63, 329.63, 392)
    ∧ getChordNotes "F#m" = some (369.99, 440, 277.18) := by
  refine ⟨by decide, by decide, by decide, by decide, by decide, by decide,
    by decide, ?_, ?_, ?_⟩
  · have h1 : pyEndsWith "Am" "m" = true := by decide
    have h2 : pyDropLast "Am" = "A" := by decide
    have h3 : getMinorThird "A" = some "C" := by decide
    have h4 : getPerfectFifth "A" = some "E" := by decide
    simp [getChordNotes, h1, h2, h3, h4, noteFreq, noteFrequencies,
      List.lookup]
    norm_num
  · have h1 : pyEndsWith "C" "m" = false := by decide
    have h3 : getMajorThird "C" = some "E" := by decide
    have h4 : getPerfectFifth "C" = some "G" := by decide
    simp [getChordNotes, h1, h3, h4, noteFreq, noteFrequencies, List.lookup]
    norm_num
  · have h1 : pyEndsWith "F#m" "m" = true := by decide
    have h2 : pyDropLast "F#m" = "F#" := by decide
    have h3 : getMinorThird "F#" = some "A" := by decide
    have h4 : getPerfectFifth "F#" = some "C#" := by decide
    simp [getChordNotes, h1, h2, h3, h4, noteFreq, noteFrequencies,
      List.lookup]
    norm_num

/-- Witness for `c5_chord_tones` at position `0` ("C"). -/
theorem c5_chord_tones_witness :
    getMajorThird (chromaticNotes.getD 0 "") =
      chromaticNotes.get? ((0 + 4) % 12) :=
  c5_chord_tones.1 0 (by norm_num)

/-! ## Music-layer mixing (`AudioAgent._mix_music_layers`)

A pydub `AudioSegment` is modelled as its list of samples (`List ℤ`).
`AudioSegment.silent(d)` is a run of zeros, `+` is concatenation, and
`a.overlay(b)` mixes `b` onto `a` sample-wise, keeping `a`'s length (pydub
discards the part of the overlaid segment that extends past the base). -/

/-- Embeds `AudioSegment.silent(duration=n)`. -/
def segSilent (n : ℕ) : List ℤ := List.replicate n 0

/-- Embeds `a.overlay(b)`: sample-wise sum where both are defined, remainder of the
base `a` kept, overhang of `b` discarded (result has `a`'s length). -/
def segOverlay (a b : List ℤ) : List ℤ :=
  List.zipWith (· + ·) a b ++ a.drop b.length

/-- Embeds `_mix_music_layers(melody, harmony, rhythm)` from
`src/agents/audio_agent.py`, including the source's
`max(len(melody), len(harmony), len(harmony))` computation of the common
length (the third argument of `max` repeats `harmony`). -/
def mixMusicLayers (melody harmony rhythm : List ℤ) : List ℤ :=
  let maxLength := max melody.length (max harmony.length harmony.length)
  let melody' := if melody.length < maxLength then
    melody ++ segSilent (maxLength - melody.length) else melody
  let harmony' := if harmony.length < maxLength then
    harmony ++ segSilent (maxLength - harmony.length) else harmony
  let rhythm' := if rhythm.length < maxLength then
    rhythm ++ segSilent (maxLength - rhythm.length) else rhythm
  segOverlay (segOverlay melody' harmony') rhythm'

/-- C6 (code bug): with a one-sample melody, a one-sample harmony and a
two-sample rhythm, the mixed buffer has length `1`, not the common length
`2 = max` of the three layers: the source computes the common length as
`max(len(melody), len(harmony), len(harmony))`, omitting the rhythm layer,
so when rhythm is the longest layer it is neither padded against nor fully
retained by the overlay. -/
theorem c6_mix_length_bug :
    (mixMusicLayers [0] [0] [0, 0]).length = 1 ∧
    max ([(0:ℤ)].length) (max ([(0:ℤ)].length) ([(0:ℤ), 0].length)) = 2 := by
  decide

/-! ## Audio/video muxing (`AudioAgent._merge_audio_video`, `add_audio`)

The external effects of the audio path (moviepy import, file loads, file
writes, the music/voice/effects synthesis steps) are modelled by an
environment of success flags; each fallible step is an `Except` value and a
`try/except` is a `match` on it. -/

structure AudioEnv where
  moviepyAvailable : Bool
  videoLoadOk : Bool
  audioLoadOk : Bool
  muxWriteOk : Bool
  advancedMusicOk : Bool
  simpleMusicOk : Bool
  enhancedVoiceOk : Bool
  voicePlaceholderOk : Bool
  effectsOk : Bool
  combineAdvancedOk : Bool
  combineSimpleOk : Bool

/-- The `try`-body of `_merge_audio_video`: import moviepy, load the clips,
mux, write the output file `final_<name>`; any of these may raise. -/
def mergeAudioVideoRun (env : AudioEnv) (videoPath audioPath : String) :
    Except String String :=
  if env.moviepyAvailable then
    if env.videoLoadOk then
      if env.audioLoadOk then
        if env.muxWriteOk then .ok ("final_" ++ videoPath)
        else .error "write_videofile failed"
      else .error ("AudioFileClip failed: " ++ audioPath)
    else .error "VideoFileClip failed"
  else .error "ImportError: moviepy"

/-- Embeds `_merge_audio_video`: both `except` arms (ImportError and the generic
`Exception`) return the original, unmodified video path. -/
def mergeAudioVideo (env : AudioEnv) (videoPath audioPath : String) : String :=
  match mergeAudioVideoRun env videoPath audioPath with
  | .ok p => p
  | .error _ => videoPath

/-- Embeds `_create_advanced_music`: tries the layered generation, falling back to
`_create_simple_music` (which itself may raise) on any failure. -/
def createAdvancedMusic (env : AudioEnv) (style : String) :
    Except String String :=
  if env.advancedMusicOk then .ok ("music_" ++ style)
  else if env.simpleMusicOk then .ok ("simple_music_" ++ style)
  else .error "simple music failed"

/-- Embeds `_create_enhanced_voice`: falls back to `_create_voice_placeholder`
(which itself may raise) on any failure. -/
def createEnhancedVoice (env : AudioEnv) : Except String String :=
  if env.enhancedVoiceOk then .ok "enhanced_voice.wav"
  else if env.voicePlaceholderOk then .ok "voice_placeholder.wav"
  else .error "voice failed"

/-- Embeds `_add_sound_effects`: catches every failure and returns `""`. -/
def addSoundEffects (env : AudioEnv) (style : String) : String :=
  if env.effectsOk then "effects_" ++ style else ""

/-- Embeds `_combine_audio_advanced`: falls back to `_combine_audio` (which itself
may raise) on any failure. -/
def combineAudioAdvanced (env : AudioEnv) (music voice effects : String) :
    Except String String :=
  if env.combineAdvancedOk then .ok "combined_advanced.wav"
  else if env.combineSimpleOk then .ok "combined_simple.wav"
  else .error "combine failed"

/-- The `try`-body of `add_audio`: music, voice, effects, combination, then
the (itself non-raising) audio/video merge. -/
def addAudioRun (env : AudioEnv) (videoPath : String) :
    Except String String := do
  let music ← createAdvancedMusic env "upbeat_cute"
  let voice ← createEnhancedVoice env
  let effects := addSoundEffects env "upbeat_cute"
  let combined ← combineAudioAdvanced env music voice effects
  pure (mergeAudioVideo env videoPath combined)

/-- Embeds `add_audio`: the outer `except` returns the original video path. -/
def add_audio (env : AudioEnv) (videoPath : String) : String :=
  match addAudioRun env videoPath with
  | .ok p => p
  | .error _ => videoPath

/-- C7 (confirmed): whenever the muxing body fails — missing moviepy, a
failing clip load, or a failing write — `_merge_audio_video` returns the
original unmodified video path instead of propagating the error; and the
`add_audio` entry point never surfaces an error to its caller: it always
returns some path (the successful result, or the original video path). -/
theorem c7_mux_failure_returns_original (env env' : AudioEnv)
    (v a e w : String)
    (hfail : mergeAudioVideoRun env v a = Except.error e) :
    mergeAudioVideo env v a = v ∧
    (addAudioRun env' w = Except.ok (add_audio env' w) ∨
      add_audio env' w = w) := by
  constructor
  · unfold mergeAudioVideo
    rw [hfail]
  · unfold add_audio
    cases h : addAudioRun env' w with
    | ok p => exact Or.inl rfl
    | error e2 => exact Or.inr rfl

/-- The concrete environment in which moviepy is unavailable and every
other step succeeds. -/
def muxFailEnv : AudioEnv :=
  ⟨false, true, true, true, true, true, true, true, true, true, true⟩

/-- Witness for `c7_mux_failure_returns_original`: moviepy unavailable. -/
theorem c7_mux_failure_returns_original_witness :
    mergeAudioVideo muxFailEnv "v.mp4" "a.wav" = "v.mp4" ∧
    (addAudioRun muxFailEnv "v.mp4" =
        Except.ok (add_audio muxFailEnv "v.mp4") ∨
      add_audio muxFailEnv "v.mp4" = "v.mp4") :=
  c7_mux_failure_returns_original muxFailEnv muxFailEnv "v.mp4" "a.wav"
    "ImportError: moviepy" "v.mp4" rfl

/-! ## Encoding a frame sequence (`VideoAgent._create_fallback_video`,
lines 396–444, and `_create_gif_video`)

After rendering, the source writes each frame to
`temp_frames/frame_XXXX.png`, invokes ffmpeg via `subprocess.run`, and
removes the temp files only when ffmpeg returns exit status 0.  The `except
ImportError` arm (whose log message says "FFmpeg not available, trying
alternative method") calls `_create_gif_video`; a missing ffmpeg *binary*
instead raises `FileNotFoundError` from `subprocess.run`, and a non-zero
exit status raises `Exception("FFmpeg video creation failed")` — both reach
the outer `except`, which re-raises. -/

structure EncEnv where
  /-- Whether `import subprocess` succeeds (in CPython it essentially always
  does). -/
  subprocessImportOk : Bool
  /-- Whether the ffmpeg binary exists (otherwise `subprocess.run` raises
  `FileNotFoundError`). -/
  ffmpegFound : Bool
  /-- Exit status of ffmpeg. -/
  ffmpegExit : ℕ
  /-- Whether the GIF save in `_create_gif_video` succeeds. -/
  gifSaveOk : Bool

/-- Temp frame filename, index zero-padded to four digits. -/
def framePathName (i : ℕ) : String :=
  let s := toString i
  "frame_" ++ ⟨List.replicate (4 - s.length) '0'⟩ ++ s ++ ".png"

structure EncodeOutcome where
  /-- Value returned by (or exception escaping from) the encode phase of
  `_create_fallback_video`. -/
  result : Except String String
  /-- Temp frame files still on disk afterwards. -/
  tempFiles : List String
  /-- Pair of per-frame duration in ms and loop count of a written GIF, if
  any. -/
  gifWritten : Option (ℕ × ℕ)

/-- The encode phase of `_create_fallback_video` (given `nFrames` already
rendered frames), composed with `_create_gif_video` for the
`except ImportError` arm; the GIF is written with per-frame duration
`1000 // fps` ms and `loop=0`. -/
def encodeFrames (env : EncEnv) (nFrames fps : ℕ)
    (outputPath gifPath : String) : EncodeOutcome :=
  let framePaths := (List.range nFrames).map framePathName
  if env.subprocessImportOk then
    if env.ffmpegFound then
      if env.ffmpegExit = 0 then
        { result := .ok outputPath, tempFiles := [], gifWritten := none }
      else
        { result := .error "FFmpeg video creation failed",
          tempFiles := framePaths, gifWritten := none }
    else
      { result := .error "FileNotFoundError: ffmpeg",
        tempFiles := framePaths, gifWritten := none }
  else
    if env.gifSaveOk then
      { result := .ok gifPath, tempFiles := framePaths,
        gifWritten := some (1000 / fps, 0) }
    else
      { result := .error "GIF save failed", tempFiles := framePaths,
        gifWritten := none }

/-- C2 (code bug): with `subprocess` importable (as it always is), a missing
ffmpeg binary or a non-zero ffmpeg exit status makes the encode step raise
to its caller without writing any GIF — the GIF fallback is reachable only
through the dead `except ImportError` arm — contradicting the claim (and
the arm's own "FFmpeg not available" log message). -/
theorem c2_encoder_failure_no_gif :
    (encodeFrames ⟨true, false, 0, true⟩ 3 10 "out.mp4" "out.gif").result =
      Except.error "FileNotFoundError: ffmpeg" ∧
    (encodeFrames ⟨true, false, 0, true⟩ 3 10 "out.mp4" "out.gif").gifWritten
      = none ∧
    (encodeFrames ⟨true, true, 1, true⟩ 3 10 "out.mp4" "out.gif").result =
      Except.error "FFmpeg video creation failed" ∧
    (encodeFrames ⟨true, true, 1, true⟩ 3 10 "out.mp4" "out.gif").gifWritten
      = none ∧
    (encodeFrames ⟨false, true, 0, true⟩ 3 10 "out.mp4" "out.gif").result =
      Except.ok "out.gif" :=
  ⟨rfl, rfl, rfl, rfl, rfl⟩

/-- C9 counterexample: when ffmpeg runs but exits non-zero, the encode step
raises and the temporary frame file `frame_0000.png` is left on disk — the
temp still-image files are *not* deleted on the failure path. -/
theorem c9_counterexample :
    (encodeFrames ⟨true, true, 1, true⟩ 1 10 "out.mp4" "out.gif").tempFiles =
      ["frame_0000.png"] := by
  decide

/-- C9 (amended): the temporary still-image files are deleted on the
*success* path of the external encoder (exit status 0); on the failure path
(and on the GIF-fallback path) they remain. -/
theorem c9_success_cleanup (env : EncEnv) (n fps : ℕ) (op gp : String)
    (h1 : env.subprocessImportOk = true) (h2 : env.ffmpegFound = true)
    (h3 : env.ffmpegExit = 0) :
    (encodeFrames env n fps op gp).tempFiles = [] := by
  simp [encodeFrames, h1, h2, h3]

/-- Witness for `c9_success_cleanup`: ffmpeg present and succeeding. -/
theorem c9_success_cleanup_witness :
    (encodeFrames ⟨true, true, 0, true⟩ 2 10 "out.mp4" "out.gif").tempFiles
      = [] :=
  c9_success_cleanup ⟨true, true, 0, true⟩ 2 10 "out.mp4" "out.gif" rfl rfl
    rfl

/-! ## Procedural frame rendering (`VideoAgent._create_fallback_video`,
lines 305–394)

The per-frame rendering loop uses only `np.sin`, `np.cos`, `np.sqrt` and
`np.pi` applied to the frame index and pixel coordinates; those library
routines are opaque to the repository, so they are supplied as a `MathFns`
record, and every theorem below holds for an arbitrary record.  Ambient
process state that Python code *could* read (wall clock, global RNG state)
is passed explicitly as an `AmbientEnv`; the rendering path of the source
contains no `time`/`random` calls, which is exactly what `AmbientEnv`
independence expresses.  `putpixel` is modelled as pointwise function
update, applied in the source's order (painter's algorithm: later layers
overwrite earlier ones). -/

structure MathFns where
  sin : ℚ → ℚ
  cos : ℚ → ℚ
  sqrt : ℚ → ℚ
  pi : ℚ

structure AmbientEnv where
  wallClock : ℕ
  rngState : ℕ

structure Frame where
  width : ℕ
  height : ℕ
  pixel : ℕ → ℕ → ℤ × ℤ × ℤ

/-- The gradient background of `_create_fallback_video`: per-row sinusoid
channels (constants `0.1`, `0.15`, `0.12` from the source). -/
def gradientPixel (m : MathFns) (h i y : ℕ) : ℤ × ℤ × ℤ :=
  ( pyInt (20 + 30 * m.sin ((y : ℚ) / (h : ℚ) * m.pi + (i : ℚ) * (1/10)))
  , pyInt (10 + 20 * m.cos ((y : ℚ) / (h : ℚ) * m.pi + (i : ℚ) * (3/20)))
  , pyInt (30 + 25 * m.sin ((y : ℚ) / (h : ℚ) * m.pi + (i : ℚ) * (3/25))) )

/-- One frame of `_create_fallback_video`: gradient background, then the
main breathing circle with linear alpha falloff, three orbiting circles,
eight particles with a 3×3 glow, and five diamond glyph patterns, drawn in
the source's order. -/
def renderFallbackFrame (m : MathFns) (env : AmbientEnv) (w h i fps : ℕ) :
    Frame :=
  let tf : ℚ := (i : ℚ) * (1/10)
  let cx : ℤ := pyInt ((w : ℚ) * (1/2) + 80 * m.sin tf)
  let cy : ℤ := pyInt ((h : ℚ) * (1/2) + 60 * m.cos (tf * (13/10)))
  let cr : ℤ := pyInt (40 + 20 * m.sin (tf * 2))
  let hue : ℕ := (i * 15) % 360
  let mainColor := hsv_to_rgb (hue : ℚ) 80 90
  let base : ℕ → ℕ → ℤ × ℤ × ℤ := fun _x y => gradientPixel m h i y
  let afterMain : ℕ → ℕ → ℤ × ℤ × ℤ := fun x y =>
    let xi : ℤ := (x : ℤ)
    let yi : ℤ := (y : ℤ)
    let dist := m.sqrt (((xi : ℚ) - (cx : ℚ)) ^ 2 + ((yi : ℚ) - (cy : ℚ)) ^ 2)
    if max 0 (cx - cr) ≤ xi ∧ xi < min (w : ℤ) (cx + cr) ∧
        max 0 (cy - cr) ≤ yi ∧ yi < min (h : ℤ) (cy + cr) ∧
        dist ≤ (cr : ℚ) then
      let alpha := max 0 (1 - dist / (cr : ℚ))
      let alpha := min 1 (alpha * (3/2))
      (pyInt ((mainColor.1 : ℚ) * alpha), pyInt ((mainColor.2.1 : ℚ) * alpha),
        pyInt ((mainColor.2.2 : ℚ) * alpha))
    else base x y
  let orbitUpd : ℕ → (ℕ → ℕ → ℤ × ℤ × ℤ) → ℕ → ℕ → ℤ × ℤ × ℤ :=
    fun j prev =>
      let angle := tf * (1 + (j : ℚ) * (1/2)) + (j : ℚ) * m.pi / 2
      let orad : ℚ := 120 + (j : ℚ) * 20
      let ox : ℤ := pyInt ((w : ℚ) * (1/2) + orad * m.cos angle)
      let oy : ℤ := pyInt ((h : ℚ) * (1/2) + orad * m.sin angle)
      let sr : ℤ := 15 + (j : ℤ) * 5
      let ocolor := hsv_to_rgb (((hue + j * 120) % 360 : ℕ) : ℚ) 70 80
      fun x y =>
        let xi : ℤ := (x : ℤ)
        let yi : ℤ := (y : ℤ)
        if max 0 (ox - sr) ≤ xi ∧ xi < min (w : ℤ) (ox + sr) ∧
            max 0 (oy - sr) ≤ yi ∧ yi < min (h : ℤ) (oy + sr) ∧
            (xi - ox) ^ 2 + (yi - oy) ^ 2 ≤ sr ^ 2 then ocolor
        else prev x y
  let afterOrbits :=
    (List.range 3).foldl (fun acc j => orbitUpd j acc) afterMain
  let particleUpd : ℕ → (ℕ → ℕ → ℤ × ℤ × ℤ) → ℕ → ℕ → ℤ × ℤ × ℤ :=
    fun k prev =>
      let pangle := tf * (1/2) + (k : ℚ) * m.pi / 4
      let prad : ℚ := 200 + (k : ℚ) * 30
      let px : ℤ := pyInt ((w : ℚ) * (1/2) + prad * m.cos pangle)
      let py : ℤ := pyInt ((h : ℚ) * (1/2) + prad * m.sin pangle)
      let pcolor := hsv_to_rgb (((hue + k * 45) % 360 : ℕ) : ℚ) 60 70
      fun x y =>
        let xi : ℤ := (x : ℤ)
        let yi : ℤ := (y : ℤ)
        if (0 ≤ px ∧ px < (w : ℤ) ∧ 0 ≤ py ∧ py < (h : ℤ)) ∧
            (xi - px).natAbs ≤ 1 ∧ (yi - py).natAbs ≤ 1 ∧
            xi < (w : ℤ) ∧ yi < (h : ℤ) then pcolor
        else prev x y
  let afterParticles :=
    (List.range 8).foldl (fun acc k => particleUpd k acc) afterOrbits
  let patternUpd : ℕ → (ℕ → ℕ → ℤ × ℤ × ℤ) → ℕ → ℕ → ℤ × ℤ × ℤ :=
    fun t prev =>
      let txc : ℤ := 50 + (t : ℤ) * 100
      let tyc : ℤ := (h : ℤ) - 80
      let pangle := tf + (t : ℚ) * (3/10)
      let psize : ℤ := pyInt (8 + 4 * m.sin pangle)
      let pcolor := hsv_to_rgb (((hue + t * 72) % 360 : ℕ) : ℚ) 50 60
      fun x y =>
        let dx : ℤ := (x : ℤ) - txc
        let dy : ℤ := (y : ℤ) - tyc
        if -psize ≤ dx ∧ dx < psize ∧ -psize ≤ dy ∧ dy < psize ∧
            |dx| + |dy| ≤ psize ∧ (x : ℤ) < (w : ℤ) ∧ (y : ℤ) < (h : ℤ) then
          pcolor
        else prev x y
  let afterPatterns :=
    (List.range 5).foldl (fun acc t => patternUpd t acc) afterParticles
  { width := w, height := h, pixel := afterPatterns }

/-- The frame loop of `_create_fallback_video`:
`for i in range(duration * self.fps)`. -/
def createFallbackFrames (m : MathFns) (env : AmbientEnv)
    (w h duration fps : ℕ) : List Frame :=
  (List.range (duration * fps)).map fun i =>
    renderFallbackFrame m env w h i fps

/-- A concrete math record, for witnesses. -/
def constMathFns : MathFns :=
  { sin := fun _ => 0, cos := fun _ => 0, sqrt := fun _ => 0,
    pi := 314159 / 100000 }

/-- A concrete ambient environment, for witnesses. -/
def ambient0 : AmbientEnv := { wallClock := 0, rngState := 0 }

/-- C1 counterexample: at `duration = 0`, `fps = 10` the frame loop runs
zero times, producing the empty sequence — not the `max(1, round(0*10)) = 1`
frame the claim requires. -/
theorem c1_counterexample :
    (createFallbackFrames constMathFns ambient0 640 480 0 10).length = 0 ∧
    (0 : ℕ) ≠ max 1 (0 * 10) := by
  constructor
  · simp [createFallbackFrames]
  · decide

/-- C1 (amended): the frame-sequence builder produces exactly
`duration * fps` frames (no `max(1, ·)` guard), each of dimensions
`width × height`; in particular `duration = 2, fps = 10` yields 20 frames
and `duration = 0, fps = 10` yields the empty sequence. -/
theorem c1_frame_count (m : MathFns) (env : AmbientEnv) (w h d fps : ℕ) :
    (createFallbackFrames m env w h d fps).length = d * fps ∧
    ∀ f ∈ createFallbackFrames m env w h d fps,
      f.width = w ∧ f.height = h := by
  constructor
  · simp [createFallbackFrames]
  · intro f hf
    simp only [createFallbackFrames, List.mem_map] at hf
    obtain ⟨i, _, rfl⟩ := hf
    exact ⟨rfl, rfl⟩

/-- Witness for `c1_frame_count` at `640×480`, `duration = 2`, `fps = 10`,
applied to the frame of index 0. -/
theorem c1_frame_count_witness :
    (createFallbackFrames constMathFns ambient0 640 480 2 10).length =
      2 * 10 ∧
    (renderFallbackFrame constMathFns ambient0 640 480 0 10).width = 640 ∧
    (renderFallbackFrame constMathFns ambient0 640 480 0 10).height = 480 :=
  ⟨(c1_frame_count constMathFns ambient0 640 480 2 10).1,
    ((c1_frame_count constMathFns ambient0 640 480 2 10).2 _
      (List.mem_map_of_mem _ (by simp))).1,
    ((c1_frame_count constMathFns ambient0 640 480 2 10).2 _
      (List.mem_map_of_mem _ (by simp))).2⟩

/-- C4 (confirmed): for a fixed math library and fixed
`(width, height, frame_index, fps)`, the rendered frame is identical for
*any* two ambient environments (wall clock, RNG state): the rendering path
reads neither, so two separate invocations produce byte-identical frames. -/
theorem c4_render_deterministic (m : MathFns) (w h i fps : ℕ)
    (e1 e2 : AmbientEnv) :
    renderFallbackFrame m e1 w h i fps = renderFallbackFrame m e2 w h i fps :=
  rfl

/-! ## Resolution parsing (`VideoAgent.__init__`, lines 33–38)

`tuple(map(int, self.settings.video_resolution.split('x')))`, with the
`except (ValueError, AttributeError)` arm falling back to `(1080, 1920)`.
Python strings are handled on their character lists so that everything
evaluates; `int(str)` is modelled for plain decimal strings (an optional
leading `'-'` followed by digits — Python additionally tolerates
surrounding whitespace, a `'+'` sign and `'_'` separators, none of which
occur in resolution strings). -/

/-- Digit characters to the number they spell (used under an all-digits
guard). -/
def digitsToNat (l : List Char) : ℕ :=
  List.foldl (fun n c => 10 * n + (c.toNat - 48)) 0 l

/-- Python `int(s)` for plain decimal strings; `none` models `ValueError`. -/
def pyStrToInt (s : String) : Option ℤ :=
  match s.data with
  | [] => none
  | '-' :: rest =>
    if rest ≠ [] ∧ rest.all Char.isDigit then
      some (-(digitsToNat rest : ℤ))
    else none
  | l => if l.all Char.isDigit then some ((digitsToNat l : ℕ) : ℤ) else none

/-- Python `str.split(sep)` for a one-character separator. -/
def splitOnChar (sep : Char) : List Char → List (List Char) :=
  List.foldr
    (fun c acc =>
      if c = sep then [] :: acc
      else
        match acc with
        | [] => [[c]]
        | a :: as => (c :: a) :: as)
    [[]]

/-- Python split of a string on a separator, as a list of strings. -/
def pySplit (s : String) (sep : Char) : List String :=
  (splitOnChar sep s.data).map fun l => ⟨l⟩

/-- The resolution computation of `VideoAgent.__init__`: parse every
`'x'`-separated component with `int`; on a component's `ValueError` (or an
`AttributeError` when the setting is not a string, modelled by `none`) fall
back to `(1080, 1920)`.  A successful parse keeps however many components
the string had. -/
def videoAgentResolution (setting : Option String) : List ℤ :=
  match setting with
  | none => [1080, 1920]
  | some s =>
    match (pySplit s 'x').mapM pyStrToInt with
    | none => [1080, 1920]
    | some l => l

/-- C10 counterexample: the setting `"1080"` cannot be split on `'x'` into
two integers, yet the constructor does *not* fall back to the default — it
stores the 1-tuple `(1080,)` (and would likewise store a 3-tuple for
`"10x20x30"`). -/
theorem c10_counterexample :
    videoAgentResolution (some "1080") = [1080] ∧
    videoAgentResolution (some "1080") ≠ [1080, 1920] ∧
    videoAgentResolution (some "10x20x30") = [10, 20, 30] := by
  refine ⟨by decide, by decide, by decide⟩

/-- C10 (amended): constructing the agent never raises; the fallback to the
default `(1080, 1920)` occurs exactly when some component fails integer
parsing (`ValueError`) or the setting is not a string (`AttributeError`) —
a string of `k ≠ 2` valid integers instead yields a `k`-tuple — and when
the fallback occurs, every subsequently rendered frame has dimensions
`1080 × 1920`. -/
theorem c10_fallback_resolution (s : String)
    (hbad : (pySplit s 'x').mapM pyStrToInt = none) :
    videoAgentResolution (some s) = [1080, 1920] ∧
    videoAgentResolution none = [1080, 1920] ∧
    ∀ m env d fps f, f ∈ createFallbackFrames m env 1080 1920 d fps →
      f.width = 1080 ∧ f.height = 1920 := by
  refine ⟨?_, rfl, ?_⟩
  · have hstep : videoAgentResolution (some s) =
        match (pySplit s 'x').mapM pyStrToInt with
        | none => [1080, 1920]
        | some l => l := rfl
    rw [hstep, hbad]
  · intro m env d fps f hf
    simp only [createFallbackFrames, List.mem_map] at hf
    obtain ⟨i, _, rfl⟩ := hf
    exact ⟨rfl, rfl⟩

/-- Witness for `c10_fallback_resolution` at the malformed setting
`"abc"`. -/
theorem c10_fallback_resolution_witness :
    videoAgentResolution (some "abc") = [1080, 1920] :=
  (c10_fallback_resolution "abc" (by decide)).1
